import Mathlib

/-!
Verification of `components/bluetooth-sink-switch/bt-sink-switch.py`.

The script is embedded as a trace-producing interpreter over an environment
`Env` that fixes the text answers of the external collaborators (`mpc`,
`bluetoothctl`, `gpiofind`, `gpioset`).  Each external subprocess call and
each `time.sleep` becomes an `Event`; `logger.error` calls are recorded too
(debug/warning logging and `print` touch no collaborator and are omitted).
Python exceptions are modelled with `Except`: `subprocess.run` with a `None`
argument raises `TypeError` before any process is spawned, and list indexing
out of range raises `IndexError`.  Sleep durations are kept in milliseconds
(`time.sleep(0.1)` becomes 100, `time.sleep(0.25)` becomes 250).

The `re.search` patterns of the script are implemented literally on
character lists: `b"Output 2.*enabled"`, `b"Output 3.*enabled"`,
`b"ERROR:.*output"` (a dot never matches a newline, so both literals must
occur on one line, in order), `b"Connected:\s+yes"` and
`"^Device ([0-9A-F:]*) "`.
-/

namespace BtSink

/-- Python exceptions the script can raise. -/
inductive PyError where
  | typeError
  | indexError
deriving DecidableEq, Repr

/-- One observable external action of the script: a subprocess invocation,
a sleep, or an error-level log line. -/
inductive Event where
  | gpiofind (pin : String)
  | mpcOutputsQuery
  | btInfoQuery
  | btDevicesQuery
  | btConnect (device : String)
  | mpcEnable (outputId : Nat)
  | mpcEnableOnly (outputId : Nat)
  | sleepMs (ms : Nat)
  | mpcStatusQuery
  | mpcPlay
  | gpioset (chip : String) (line : String) (level : Bool)
  | logError (msg : String)
deriving DecidableEq, Repr

/-- Python `\s` on ASCII bytes: space, tab, newline, carriage return,
vertical tab, form feed. -/
def isPyWhitespace (c : Char) : Bool :=
  c = ' ' || c = '\t' || c = '\n' || c = '\r' || c = Char.ofNat 11 || c = Char.ofNat 12

/-- Python `str.strip()`: drop whitespace from both ends. -/
def pyStrip (l : List Char) : List Char :=
  ((l.dropWhile isPyWhitespace).reverse.dropWhile isPyWhitespace).reverse

/-- Split a character list at every occurrence of a separator character,
like Python `str.split(sep)` for a one-character separator. -/
def splitOnChar (c : Char) : List Char → List (List Char)
  | [] => [[]]
  | x :: xs =>
    match splitOnChar c xs with
    | [] => if x = c then [[], []] else [[x]]
    | y :: ys => if x = c then [] :: y :: ys else (x :: y) :: ys

/-- Does `pat` occur as a contiguous segment of `l`? -/
def segOccurs (pat l : List Char) : Bool :=
  (List.range (l.length + 1)).any fun i => pat.isPrefixOf (l.drop i)

/-- Does `line` contain an occurrence of `a` followed (at or after its end)
by an occurrence of `b`?  This is `re.search` of `a.*b` within one line. -/
def lineHasThen (a b line : List Char) : Bool :=
  (List.range (line.length + 1)).any fun i =>
    a.isPrefixOf (line.drop i) && segOccurs b ((line.drop i).drop a.length)

/-- The semantics of `re.search(a ++ ".*" ++ b, s)` being a match, for
literals `a`, `b` without newlines: some newline-free line of `s` contains
`a` and then `b`. -/
def reSearchThen (a b : String) (s : String) : Bool :=
  (splitOnChar '\n' s.data).any fun line => lineHasThen a.data b.data line

/-- Match of `Connected:\s+yes` starting exactly at the head of `l`. -/
def connectedYesAt (l : List Char) : Bool :=
  "Connected:".data.isPrefixOf l &&
    (let rest := l.drop 10
     let k := (rest.takeWhile isPyWhitespace).length
     decide (0 < k) && "yes".data.isPrefixOf (rest.drop k))

/-- The semantics of `re.search(b"Connected:\s+yes", s)` being a match.
Since `y` is not whitespace, greedy whitespace munching is equivalent to
the regex's backtracking. -/
def matchConnectedYes (s : String) : Bool :=
  (List.range (s.data.length + 1)).any fun i => connectedYesAt (s.data.drop i)

/-- The semantics of `re.search(b"ERROR:.*output", s)` being a match. -/
def matchErrorOutput (s : String) : Bool :=
  reSearchThen "ERROR:" "output" s

/-- Character class `[0-9A-F:]` of the device-line regex. -/
def isDevIdChar (c : Char) : Bool :=
  c.isDigit || ('A' ≤ c && c ≤ 'F') || c = ':'

/-- The `^Device ([0-9A-F:]*) ` regex of `bt_connect_all`, applied to one
line: returns the captured device id on a match.  Since a space is not in
the character class, greedy munching is equivalent to the regex. -/
def parseDeviceLine (line : List Char) : Option (List Char) :=
  if "Device ".data.isPrefixOf line then
    let rest := line.drop 7
    let idc := rest.takeWhile isDevIdChar
    match rest.drop idc.length with
    | c :: _ => if c = ' ' then some idc else none
    | [] => none
  else none

/-- The fixed answers of the external collaborators during one invocation:
stdout of `mpc outputs`, of `bluetoothctl info`, of `mpc status`, of
`bluetoothctl devices`, and per pin name the `(returncode, stdout)` of
`gpiofind`. -/
structure Env where
  mpcOutputsText : String
  btInfoText : String
  mpcStatusText : String
  btDevicesText : String
  gpiofind : String → Int × String

/-- Result of `re.search(b"Output 2.*enabled", mpc outputs)`. -/
def Env.isOutput2On (env : Env) : Bool :=
  reSearchThen "Output 2" "enabled" env.mpcOutputsText

/-- Result of `re.search(b"Output 3.*enabled", mpc outputs)`. -/
def Env.isOutput3On (env : Env) : Bool :=
  reSearchThen "Output 3" "enabled" env.mpcOutputsText

/-- Result of `re.search(b"Connected:\s+yes", bluetoothctl info)`. -/
def Env.isBtConnected (env : Env) : Bool :=
  matchConnectedYes env.btInfoText

/-- Device ids `bt_connect_all` extracts from
`bluetoothctl devices` stdout: `stdout.decode().strip().split("\n")`, each
line matched against `^Device ([0-9A-F:]*) `. -/
def btDeviceIds (env : Env) : List String :=
  ((splitOnChar '\n' (pyStrip env.btDevicesText.data)).filterMap parseDeviceLine).map
    fun l => String.mk l

/-- A step of the embedded script: the events it emits plus either a normal
result or a raised Python exception. -/
abbrev Step (α : Type) := List Event × Except PyError α

/-- Emit events and succeed. -/
def emit (es : List Event) : Step Unit := (es, Except.ok ())

/-- Sequencing of two steps: the second runs only when the first did not
raise; events accumulate. -/
def eseq (x y : Step Unit) : Step Unit :=
  match x.2 with
  | Except.error e => (x.1, Except.error e)
  | Except.ok _ => (x.1 ++ y.1, y.2)

/-- Embedding of `bt_check_mpc_err`: run `mpc status`, and if its output
matches `ERROR:.*output`, run `mpc play` once (its result is only logged). -/
def bt_check_mpc_err (env : Env) : List Event :=
  [Event.mpcStatusQuery] ++
    (if matchErrorOutput env.mpcStatusText then [Event.mpcPlay] else [])

/-- Embedding of `bt_led`: a `None` descriptor is skipped; otherwise run
`gpioset led_pin[0] led_pin[1]=level`.  Indexing a descriptor list with
fewer than two fields raises `IndexError` before any process is spawned. -/
def bt_led (led_pin : Option (List String)) (isEnabled : Bool) : Step Unit :=
  match led_pin with
  | none => ([], Except.ok ())
  | some (chip :: line :: _) => ([Event.gpioset chip line isEnabled], Except.ok ())
  | some _ => ([], Except.error PyError.indexError)

/-- Embedding of `bt_leds`: `for i in range(len(led_pins)):
bt_led(led_pins[i], led_states[i])`.  Reading `led_states[i]` beyond the
end of the state list raises `IndexError`. -/
def bt_leds : List (Option (List String)) → List Bool → Step Unit
  | [], _ => ([], Except.ok ())
  | _ :: _, [] => ([], Except.error PyError.indexError)
  | p :: ps, s :: ss =>
    match bt_led p s with
    | (es, Except.error e) => (es, Except.error e)
    | (es, Except.ok _) =>
      match bt_leds ps ss with
      | (es2, r) => (es ++ es2, r)

/-- Embedding of `bt_switch_to`: `mpc enable N`, `time.sleep(0.1)`,
`mpc enable only N`, then the error check and the LED update. -/
def bt_switch_to (env : Env) (output_id : Nat) (led_pins : List (Option (List String)))
    (led_states : List Bool) : Step Unit :=
  eseq
    (emit ([Event.mpcEnable output_id, Event.sleepMs 100, Event.mpcEnableOnly output_id] ++
      bt_check_mpc_err env))
    (bt_leds led_pins led_states)

/-- Pure value of one pin resolution: `None` when `gpiofind` exits nonzero,
otherwise `stdout.decode("utf-8").strip().split(" ")`. -/
def resolve_one (env : Env) (pin : String) : Option (List String) :=
  if (env.gpiofind pin).1 ≠ 0 then none
  else some (((splitOnChar ' ' (pyStrip (env.gpiofind pin).2.data))).map fun l => String.mk l)

/-- Embedding of `bt_find_led_pin`.  A `None` pin name reaches
`subprocess.run(["gpiofind", None])`, which raises `TypeError` before any
process runs; a nonzero exit logs an error and yields `None`. -/
def bt_find_led_pin (env : Env) (led_pin : Option String) :
    List Event × Except PyError (Option (List String)) :=
  match led_pin with
  | none => ([], Except.error PyError.typeError)
  | some pin =>
    ([Event.gpiofind pin] ++
       (if (env.gpiofind pin).1 ≠ 0 then [Event.logError "GPIO for LED not found"] else []),
     Except.ok (resolve_one env pin))

/-- The list comprehension
`[ bt_find_led_pin(led_pin) for led_pin in led_pins ]`, evaluated left to
right, aborting at the first raised exception. -/
def resolve_pins (env : Env) : List (Option String) →
    List Event × Except PyError (List (Option (List String)))
  | [] => ([], Except.ok [])
  | p :: ps =>
    match bt_find_led_pin env p with
    | (es, Except.error e) => (es, Except.error e)
    | (es, Except.ok r) =>
      match resolve_pins env ps with
      | (es2, Except.error e) => (es ++ es2, Except.error e)
      | (es2, Except.ok rs) => (es ++ es2, Except.ok (r :: rs))

/-- Embedding of `bt_connect_all`: list `bluetoothctl devices`, and for
each line matching the device regex attempt `bluetoothctl connect`,
ignoring each connect result. -/
def bt_connect_all (env : Env) : List Event :=
  [Event.btDevicesQuery] ++ (btDeviceIds env).map Event.btConnect

/-- One blink iteration of the fallback loop: LEDs (on, off), sleep 0.25s,
LEDs (off, off), sleep 0.25s. -/
def blink_cycle (rs : List (Option (List String))) : Step Unit :=
  eseq (eseq (eseq (bt_leds rs [true, false]) (emit [Event.sleepMs 250]))
    (bt_leds rs [false, false])) (emit [Event.sleepMs 250])

/-- The `for i in range(0, 3)` blink loop, for an arbitrary iteration
count. -/
def blink_cycles (rs : List (Option (List String))) : Nat → Step Unit
  | 0 => ([], Except.ok ())
  | n + 1 => eseq (blink_cycle rs) (blink_cycles rs n)

/-- Embedding of `bt_switch`.  Control flow follows the source: an invalid
command logs and returns; pins are resolved; `mpc outputs` is probed; the
first branch (`toggle` with output 2 off, or `headphones`) probes
`bluetoothctl info` and either switches to output 2 or connects all
devices, blinks three times and falls through to the speaker switch; the
second branch (`toggle2` with output 3 off, or `headphones2`) switches to
output 3; everything else falls through to the speaker switch (output 1).
The two `return` statements after `bt_switch_to(2, ...)` and
`bt_switch_to(3, ...)` are the branch ends here; the fall-through default
`bt_switch_to(1, ...)` appears once per path reaching it. -/
def bt_switch (env : Env) (cmd : String) (led_pins : List (Option String)) : Step Unit :=
  if cmd ≠ "toggle" && cmd ≠ "speakers" && cmd ≠ "headphones" &&
      cmd ≠ "toggle2" && cmd ≠ "headphones2" then
    ([Event.logError "Invalid command. Doing nothing."], Except.ok ())
  else
    match resolve_pins env led_pins with
    | (es, Except.error e) => (es, Except.error e)
    | (es, Except.ok rs) =>
      eseq (emit (es ++ [Event.mpcOutputsQuery]))
        (if (cmd = "toggle" && !env.isOutput2On) || cmd = "headphones" then
          eseq (emit [Event.btInfoQuery])
            (if env.isBtConnected then
              bt_switch_to env 2 rs [true, false]
            else
              eseq (emit (bt_connect_all env))
                (eseq (blink_cycles rs 3) (bt_switch_to env 1 rs [false, false])))
        else if (cmd = "toggle2" && !env.isOutput3On) || cmd = "headphones2" then
          bt_switch_to env 3 rs [false, true]
        else
          bt_switch_to env 1 rs [false, false])

/-- Events emitted by the pin-resolution pass
`[ bt_find_led_pin(led_pin) for led_pin in led_pins ]`, as a pure function
of the environment (meaningful when no pin name is `None`). -/
def resolveTrace (env : Env) : List (Option String) → List Event
  | [] => []
  | none :: ps => resolveTrace env ps
  | some pin :: ps =>
    ([Event.gpiofind pin] ++
       (if (env.gpiofind pin).1 ≠ 0 then [Event.logError "GPIO for LED not found"] else [])) ++
      resolveTrace env ps

/-- Values produced by the pin-resolution pass, as a pure function. -/
def resolvedPins (env : Env) (ps : List (Option String)) : List (Option (List String)) :=
  ps.map fun p =>
    match p with
    | none => none
    | some pin => resolve_one env pin

/-- Every resolved pin descriptor has at least the two fields
`led_pin[0]`, `led_pin[1]` that `bt_led` reads. -/
def GoodPins (rs : List (Option (List String))) : Prop :=
  ∀ l, some l ∈ rs → 2 ≤ l.length

/-- An environment whose `gpiofind` stdout, when the tool succeeds, has at
least two space-separated fields (a chip and a line), as on real hardware. -/
def Env.WF (env : Env) : Prop :=
  ∀ pin l, resolve_one env pin = some l → 2 ≤ l.length

/-- The event list of one blink iteration of the fallback loop. -/
def blinkTrace (rs : List (Option (List String))) : List Event :=
  (bt_leds rs [true, false]).1 ++ [Event.sleepMs 250] ++
    (bt_leds rs [false, false]).1 ++ [Event.sleepMs 250]

/-- The output id an event exclusively enables, if any. -/
def targetOf : Event → Option Nat
  | Event.mpcEnableOnly n => some n
  | _ => none

/-- All output ids exclusively enabled along a trace, in order. -/
def selectedTargets (tr : List Event) : List Nat := tr.filterMap targetOf

/-- Is the event an output-enable command (additive or exclusive)? -/
def isEnableCmd : Event → Bool
  | Event.mpcEnable _ => true
  | Event.mpcEnableOnly _ => true
  | _ => false

/-- Events that may occur before the final switch sequence of an
invocation: pin lookups, error logs, the state probes, connect attempts,
LED updates and the 250 ms blink sleeps. -/
def isPreEvent : Event → Bool
  | Event.gpiofind _ => true
  | Event.logError _ => true
  | Event.mpcOutputsQuery => true
  | Event.btInfoQuery => true
  | Event.btDevicesQuery => true
  | Event.btConnect _ => true
  | Event.gpioset _ _ _ => true
  | Event.sleepMs ms => ms == 250
  | _ => false

/-- The decision table of spec section 4.3, transcribed from the claim's
wording; `none` for a command the table does not list. -/
def decisionTableTarget (cmd : String) (o2 o3 bt : Bool) : Option Nat :=
  if cmd = "toggle" then some (if o2 then 1 else if bt then 2 else 1)
  else if cmd = "headphones" then some (if bt then 2 else 1)
  else if cmd = "toggle2" then some (if o3 then 1 else 3)
  else if cmd = "headphones2" then some 3
  else none

/-- Steady LED state pair by target, as the spec states it: target 1 gives
(off, off), target 2 gives (on, off), target 3 gives (off, on).  These are
exactly the `led_states` literals the source passes to `bt_switch_to`. -/
def ledStatesForTarget : Nat → List Bool
  | 2 => [true, false]
  | 3 => [false, true]
  | _ => [false, false]

/-- The target output the branch structure of `bt_switch` chooses. -/
def codeTarget (env : Env) (cmd : String) : Nat :=
  if (cmd = "toggle" && !env.isOutput2On) || cmd = "headphones" then
    if env.isBtConnected then 2 else 1
  else if (cmd = "toggle2" && !env.isOutput3On) || cmd = "headphones2" then 3
  else 1

/-- Player output state transition per event: an additive enable turns one
output on, an exclusive enable makes its output the only enabled one,
every other event leaves output state unchanged. -/
def applyOutputs (s : Nat → Bool) : Event → (Nat → Bool)
  | Event.mpcEnable n => fun m => if m = n then true else s m
  | Event.mpcEnableOnly n => fun m => m == n
  | _ => s

/-- Player output state after a trace, from initial state `s`. -/
def runOutputs (s : Nat → Bool) (tr : List Event) : Nat → Bool :=
  tr.foldl applyOutputs s

/-- Collaborator answers with output 1 enabled, a connected Bluetooth
device, a clean player status and failing pin lookups. -/
def envSpk : Env :=
  { mpcOutputsText := "Output 1 (MPD) is enabled"
    btInfoText := "Connected: yes"
    mpcStatusText := "volume:100%   repeat: off"
    btDevicesText := ""
    gpiofind := fun _ => (1, "") }

/-- Collaborator answers with no Bluetooth connection, one known device,
a stream error in the player status and failing pin lookups. -/
def envNC : Env :=
  { mpcOutputsText := "Output 1 (MPD) is enabled"
    btInfoText := "Connected: no"
    mpcStatusText := "ERROR: Failed to open audio output"
    btDevicesText := "Device C4:FB:20:63:A7:F2 JBL"
    gpiofind := fun _ => (1, "") }

theorem eseq_emit (l : List Event) (x : Step Unit) : eseq (emit l) x = (l ++ x.1, x.2) := rfl

theorem eseq_ok {x : Step Unit} (h : x.2 = Except.ok ()) (y : Step Unit) :
    eseq x y = (x.1 ++ y.1, y.2) := by
  simp [eseq, h]

theorem mem_eseq {x y : Step Unit} {e : Event} (he : e ∈ (eseq x y).1) :
    e ∈ x.1 ∨ e ∈ y.1 := by
  rcases hx : x.2 with e' | u <;> simp [eseq, hx] at he <;> tauto

theorem resolve_pins_eq (env : Env) (ps : List (Option String))
    (h : ∀ p ∈ ps, p ≠ none) :
    resolve_pins env ps = (resolveTrace env ps, Except.ok (resolvedPins env ps)) := by
  induction ps with
  | nil => rfl
  | cons p ps ih =>
    obtain ⟨pin, rfl⟩ : ∃ pin, p = some pin := by
      cases p with
      | none => exact absurd rfl (h none (by simp))
      | some pin => exact ⟨pin, rfl⟩
    have ih2 := ih fun q hq => h q (by simp [hq])
    simp [resolve_pins, bt_find_led_pin, ih2, resolveTrace, resolvedPins]

theorem resolvedPins_length (env : Env) (ps : List (Option String)) :
    (resolvedPins env ps).length = ps.length := by
  simp [resolvedPins]

theorem goodPins_resolved {env : Env} (hWF : Env.WF env) (ps : List (Option String)) :
    GoodPins (resolvedPins env ps) := by
  intro l hl
  simp [resolvedPins] at hl
  obtain ⟨p, hp, hpe⟩ := hl
  cases p with
  | none => simp at hpe
  | some pin => exact hWF pin l hpe

theorem bt_led_ok {p : Option (List String)} (hp : ∀ l, p = some l → 2 ≤ l.length)
    (b : Bool) : (bt_led p b).2 = Except.ok () := by
  cases p with
  | none => rfl
  | some l =>
    have h2 := hp l rfl
    rcases l with _ | ⟨c, _ | ⟨d, t⟩⟩
    · simp at h2
    · simp at h2
    · rfl

theorem bt_leds_ok : ∀ {rs : List (Option (List String))} {s : List Bool},
    GoodPins rs → rs.length ≤ s.length → (bt_leds rs s).2 = Except.ok ()
  | [], _, _, _ => rfl
  | p :: ps, [], _, hlen => by simp at hlen
  | p :: ps, b :: bs, hg, hlen => by
    have hp : ∀ l, p = some l → 2 ≤ l.length := fun l hl => hg l (by simp [hl])
    have hok := bt_led_ok hp b
    rcases hbl : bt_led p b with ⟨es, r⟩
    rw [hbl] at hok
    simp only at hok
    subst hok
    have ih := @bt_leds_ok ps bs
      (fun l hl => hg l (by simp [hl])) (by simpa using hlen)
    rcases hbs : bt_leds ps bs with ⟨es2, r2⟩
    rw [hbs] at ih
    simp only at ih
    subst ih
    simp [bt_leds, hbl, hbs]

theorem mem_bt_leds {e : Event} : ∀ {rs : List (Option (List String))} {s : List Bool},
    e ∈ (bt_leds rs s).1 → ∃ c l b, e = Event.gpioset c l b
  | [], s, he => by simp [bt_leds] at he
  | p :: ps, [], he => by simp [bt_leds] at he
  | p :: ps, b :: bs, he => by
    cases p with
    | none =>
      simp [bt_leds, bt_led] at he
      exact mem_bt_leds he
    | some l =>
      rcases l with _ | ⟨c, _ | ⟨d, t⟩⟩
      · simp [bt_leds, bt_led] at he
      · simp [bt_leds, bt_led] at he
      · simp [bt_leds, bt_led] at he
        rcases he with rfl | he
        · exact ⟨c, d, b, rfl⟩
        · exact mem_bt_leds he

theorem mem_resolveTrace {env : Env} {e : Event} : ∀ {ps : List (Option String)},
    e ∈ resolveTrace env ps →
    (∃ p, e = Event.gpiofind p) ∨ e = Event.logError "GPIO for LED not found"
  | [], he => by simp [resolveTrace] at he
  | none :: ps, he => @mem_resolveTrace env e ps he
  | some pin :: ps, he => by
    simp only [resolveTrace] at he
    rcases List.mem_append.mp he with h1 | h2
    · rcases List.mem_append.mp h1 with h3 | h4
      · exact Or.inl ⟨pin, by simpa using h3⟩
      · rcases Decidable.em ((env.gpiofind pin).1 ≠ 0) with hc | hc
        · rw [if_pos hc] at h4
          exact Or.inr (by simpa using h4)
        · rw [if_neg hc] at h4
          simp at h4
    · exact mem_resolveTrace h2

theorem mem_bt_connect_all {env : Env} {e : Event} (he : e ∈ bt_connect_all env) :
    e = Event.btDevicesQuery ∨ ∃ d, e = Event.btConnect d := by
  simp [bt_connect_all] at he
  rcases he with rfl | ⟨d, hd, rfl⟩
  · exact Or.inl rfl
  · exact Or.inr ⟨d, rfl⟩

theorem mem_bt_check {env : Env} {e : Event} (he : e ∈ bt_check_mpc_err env) :
    e = Event.mpcStatusQuery ∨ e = Event.mpcPlay := by
  by_cases hc : matchErrorOutput env.mpcStatusText <;>
    simp [bt_check_mpc_err, hc] at he <;> tauto

theorem blink_cycle_eq {rs : List (Option (List String))}
    (hg : GoodPins rs) (hlen : rs.length ≤ 2) :
    blink_cycle rs = (blinkTrace rs, Except.ok ()) := by
  have h1 : (bt_leds rs [true, false]).2 = Except.ok () := bt_leds_ok hg (by simpa)
  have h2 : (bt_leds rs [false, false]).2 = Except.ok () := bt_leds_ok hg (by simpa)
  simp [blink_cycle, blinkTrace, eseq, emit, h1, h2]

theorem blink_cycles3_eq {rs : List (Option (List String))}
    (hg : GoodPins rs) (hlen : rs.length ≤ 2) :
    blink_cycles rs 3 = (blinkTrace rs ++ blinkTrace rs ++ blinkTrace rs, Except.ok ()) := by
  simp [blink_cycles, blink_cycle_eq hg hlen, eseq]

theorem bt_switch_to_eq {env : Env} {rs : List (Option (List String))} {s : List Bool}
    (t : Nat) (hg : GoodPins rs) (hlen : rs.length ≤ s.length) :
    bt_switch_to env t rs s =
      ([Event.mpcEnable t, Event.sleepMs 100, Event.mpcEnableOnly t] ++
         bt_check_mpc_err env ++ (bt_leds rs s).1, Except.ok ()) := by
  have h1 := bt_leds_ok hg hlen
  simp [bt_switch_to, eseq, emit, h1]

theorem bt_switch_btConn_eq (env : Env) (cmd : String) (pins : List (Option String))
    (hWF : Env.WF env) (hsome : ∀ p ∈ pins, p ≠ none) (hlen : pins.length ≤ 2)
    (hcmd : (cmd = "toggle" ∧ env.isOutput2On = false) ∨ cmd = "headphones")
    (hbt : env.isBtConnected = true) :
    bt_switch env cmd pins =
      (resolveTrace env pins ++ [Event.mpcOutputsQuery, Event.btInfoQuery] ++
         ([Event.mpcEnable 2, Event.sleepMs 100, Event.mpcEnableOnly 2] ++
           bt_check_mpc_err env ++ (bt_leds (resolvedPins env pins) [true, false]).1),
       Except.ok ()) := by
  have hg := goodPins_resolved hWF pins
  have hlen2 : (resolvedPins env pins).length ≤ 2 := by
    rw [resolvedPins_length]; exact hlen
  have hsw := @bt_switch_to_eq env (resolvedPins env pins) [true, false] 2 hg hlen2
  rcases hcmd with ⟨rfl, h2⟩ | rfl
  · simp [bt_switch, resolve_pins_eq env pins hsome, h2, hbt, hsw, eseq, emit]
  · simp [bt_switch, resolve_pins_eq env pins hsome, hbt, hsw, eseq, emit]

theorem bt_switch_fallback_eq (env : Env) (cmd : String) (pins : List (Option String))
    (hWF : Env.WF env) (hsome : ∀ p ∈ pins, p ≠ none) (hlen : pins.length ≤ 2)
    (hcmd : (cmd = "toggle" ∧ env.isOutput2On = false) ∨ cmd = "headphones")
    (hbt : env.isBtConnected = false) :
    bt_switch env cmd pins =
      (resolveTrace env pins ++ [Event.mpcOutputsQuery, Event.btInfoQuery] ++
         bt_connect_all env ++
         (blinkTrace (resolvedPins env pins) ++ blinkTrace (resolvedPins env pins) ++
           blinkTrace (resolvedPins env pins)) ++
         ([Event.mpcEnable 1, Event.sleepMs 100, Event.mpcEnableOnly 1] ++
           bt_check_mpc_err env ++ (bt_leds (resolvedPins env pins) [false, false]).1),
       Except.ok ()) := by
  have hg := goodPins_resolved hWF pins
  have hlen2 : (resolvedPins env pins).length ≤ 2 := by
    rw [resolvedPins_length]; exact hlen
  have hsw := @bt_switch_to_eq env (resolvedPins env pins) [false, false] 1 hg hlen2
  have hbl := blink_cycles3_eq hg hlen2
  rcases hcmd with ⟨rfl, h2⟩ | rfl
  · simp [bt_switch, resolve_pins_eq env pins hsome, h2, hbt, hsw, hbl, eseq, emit]
  · simp [bt_switch, resolve_pins_eq env pins hsome, hbt, hsw, hbl, eseq, emit]

theorem bt_switch_secondary_eq (env : Env) (cmd : String) (pins : List (Option String))
    (hWF : Env.WF env) (hsome : ∀ p ∈ pins, p ≠ none) (hlen : pins.length ≤ 2)
    (hcmd : (cmd = "toggle2" ∧ env.isOutput3On = false) ∨ cmd = "headphones2") :
    bt_switch env cmd pins =
      (resolveTrace env pins ++ [Event.mpcOutputsQuery] ++
         ([Event.mpcEnable 3, Event.sleepMs 100, Event.mpcEnableOnly 3] ++
           bt_check_mpc_err env ++ (bt_leds (resolvedPins env pins) [false, true]).1),
       Except.ok ()) := by
  have hg := goodPins_resolved hWF pins
  have hlen2 : (resolvedPins env pins).length ≤ 2 := by
    rw [resolvedPins_length]; exact hlen
  have hsw := @bt_switch_to_eq env (resolvedPins env pins) [false, true] 3 hg hlen2
  rcases hcmd with ⟨rfl, h3⟩ | rfl
  · simp [bt_switch, resolve_pins_eq env pins hsome, h3, hsw, eseq, emit]
  · simp [bt_switch, resolve_pins_eq env pins hsome, hsw, eseq, emit]

theorem bt_switch_default_eq (env : Env) (cmd : String) (pins : List (Option String))
    (hWF : Env.WF env) (hsome : ∀ p ∈ pins, p ≠ none) (hlen : pins.length ≤ 2)
    (hcmd : cmd = "speakers" ∨ (cmd = "toggle" ∧ env.isOutput2On = true) ∨
      (cmd = "toggle2" ∧ env.isOutput3On = true)) :
    bt_switch env cmd pins =
      (resolveTrace env pins ++ [Event.mpcOutputsQuery] ++
         ([Event.mpcEnable 1, Event.sleepMs 100, Event.mpcEnableOnly 1] ++
           bt_check_mpc_err env ++ (bt_leds (resolvedPins env pins) [false, false]).1),
       Except.ok ()) := by
  have hg := goodPins_resolved hWF pins
  have hlen2 : (resolvedPins env pins).length ≤ 2 := by
    rw [resolvedPins_length]; exact hlen
  have hsw := @bt_switch_to_eq env (resolvedPins env pins) [false, false] 1 hg hlen2
  rcases hcmd with rfl | ⟨rfl, h2⟩ | ⟨rfl, h3⟩
  · simp [bt_switch, resolve_pins_eq env pins hsome, hsw, eseq, emit]
  · simp [bt_switch, resolve_pins_eq env pins hsome, h2, hsw, eseq, emit]
  · simp [bt_switch, resolve_pins_eq env pins hsome, h3, hsw, eseq, emit]

theorem targetOf_of_isPreEvent : ∀ {e : Event}, isPreEvent e = true → targetOf e = none
  | Event.gpiofind _, _ => rfl
  | Event.logError _, _ => rfl
  | Event.mpcOutputsQuery, _ => rfl
  | Event.btInfoQuery, _ => rfl
  | Event.btDevicesQuery, _ => rfl
  | Event.btConnect _, _ => rfl
  | Event.gpioset _ _ _, _ => rfl
  | Event.sleepMs _, _ => rfl
  | Event.mpcStatusQuery, h => by simp [isPreEvent] at h
  | Event.mpcPlay, h => by simp [isPreEvent] at h
  | Event.mpcEnable _, h => by simp [isPreEvent] at h
  | Event.mpcEnableOnly _, h => by simp [isPreEvent] at h

theorem isEnableCmd_of_isPreEvent : ∀ {e : Event}, isPreEvent e = true → isEnableCmd e = false
  | Event.gpiofind _, _ => rfl
  | Event.logError _, _ => rfl
  | Event.mpcOutputsQuery, _ => rfl
  | Event.btInfoQuery, _ => rfl
  | Event.btDevicesQuery, _ => rfl
  | Event.btConnect _, _ => rfl
  | Event.gpioset _ _ _, _ => rfl
  | Event.sleepMs _, _ => rfl
  | Event.mpcStatusQuery, _ => rfl
  | Event.mpcPlay, _ => rfl
  | Event.mpcEnable _, h => by simp [isPreEvent] at h
  | Event.mpcEnableOnly _, h => by simp [isPreEvent] at h

theorem ne_status_of_isPreEvent {e : Event} (h : isPreEvent e = true) :
    e ≠ Event.mpcStatusQuery := by
  intro he
  subst he
  simp [isPreEvent] at h

theorem ne_play_of_isPreEvent {e : Event} (h : isPreEvent e = true) :
    e ≠ Event.mpcPlay := by
  intro he
  subst he
  simp [isPreEvent] at h

theorem selectedTargets_append (a b : List Event) :
    selectedTargets (a ++ b) = selectedTargets a ++ selectedTargets b := by
  simp [selectedTargets]

theorem selectedTargets_eq_nil {l : List Event} (h : ∀ e ∈ l, targetOf e = none) :
    selectedTargets l = [] := by
  simpa [selectedTargets] using h

theorem preEvents_resolveTrace {env : Env} {ps : List (Option String)} :
    ∀ e ∈ resolveTrace env ps, isPreEvent e = true := by
  intro e he
  rcases mem_resolveTrace he with ⟨p, rfl⟩ | rfl <;> rfl

theorem preEvents_bt_leds {rs : List (Option (List String))} {s : List Bool} :
    ∀ e ∈ (bt_leds rs s).1, isPreEvent e = true := by
  intro e he
  obtain ⟨c, l, b, rfl⟩ := mem_bt_leds he
  rfl

theorem preEvents_blinkTrace {rs : List (Option (List String))} :
    ∀ e ∈ blinkTrace rs, isPreEvent e = true := by
  intro e he
  simp only [blinkTrace, List.mem_append, List.mem_singleton] at he
  rcases he with ((h | rfl) | h) | rfl
  · exact preEvents_bt_leds e h
  · rfl
  · exact preEvents_bt_leds e h
  · rfl

theorem preEvents_connectAll {env : Env} :
    ∀ e ∈ bt_connect_all env, isPreEvent e = true := by
  intro e he
  rcases mem_bt_connect_all he with rfl | ⟨d, rfl⟩ <;> rfl

theorem preEvents_probe2 {env : Env} {ps : List (Option String)} :
    ∀ e ∈ resolveTrace env ps ++ [Event.mpcOutputsQuery], isPreEvent e = true := by
  intro e he
  rcases List.mem_append.mp he with h | h
  · exact preEvents_resolveTrace e h
  · simp at h
    subst h
    rfl

theorem preEvents_probe3 {env : Env} {ps : List (Option String)} :
    ∀ e ∈ resolveTrace env ps ++ [Event.mpcOutputsQuery, Event.btInfoQuery],
      isPreEvent e = true := by
  intro e he
  rcases List.mem_append.mp he with h | h
  · exact preEvents_resolveTrace e h
  · simp at h
    rcases h with rfl | rfl <;> rfl

theorem preEvents_fallbackPre {env : Env} {ps : List (Option String)}
    {rs : List (Option (List String))} :
    ∀ e ∈ resolveTrace env ps ++ [Event.mpcOutputsQuery, Event.btInfoQuery] ++
        bt_connect_all env ++ (blinkTrace rs ++ blinkTrace rs ++ blinkTrace rs),
      isPreEvent e = true := by
  intro e he
  simp only [List.mem_append] at he
  rcases he with ((h | h) | h) | (h | h) | h
  · exact preEvents_resolveTrace e h
  · simp at h
    rcases h with rfl | rfl <;> rfl
  · exact preEvents_connectAll e h
  · exact preEvents_blinkTrace e h
  · exact preEvents_blinkTrace e h
  · exact preEvents_blinkTrace e h

/-- Every run of `bt_switch` on a valid command, well-formed pin lookups,
all pin names present, and at most two LED slots, ends in the single
switch sequence for the target the branch structure chooses, preceded only
by probe, resolution, connect and blink events. -/
theorem bt_switch_shape (env : Env) (cmd : String) (pins : List (Option String))
    (hWF : Env.WF env) (hsome : ∀ p ∈ pins, p ≠ none) (hlen : pins.length ≤ 2)
    (hvalid : cmd = "toggle" ∨ cmd = "speakers" ∨ cmd = "headphones" ∨
      cmd = "toggle2" ∨ cmd = "headphones2") :
    ∃ pre,
      bt_switch env cmd pins =
        (pre ++ ([Event.mpcEnable (codeTarget env cmd), Event.sleepMs 100,
            Event.mpcEnableOnly (codeTarget env cmd)] ++
           bt_check_mpc_err env ++
           (bt_leds (resolvedPins env pins) (ledStatesForTarget (codeTarget env cmd))).1),
         Except.ok ()) ∧
      ∀ e ∈ pre, isPreEvent e = true := by
  rcases hvalid with rfl | rfl | rfl | rfl | rfl
  · rcases h2 : env.isOutput2On with _ | _
    · rcases hbt : env.isBtConnected with _ | _
      · refine ⟨resolveTrace env pins ++ [Event.mpcOutputsQuery, Event.btInfoQuery] ++
          bt_connect_all env ++ (blinkTrace (resolvedPins env pins) ++
            blinkTrace (resolvedPins env pins) ++ blinkTrace (resolvedPins env pins)),
          ?_, preEvents_fallbackPre⟩
        have hct : codeTarget env "toggle" = 1 := by simp [codeTarget, h2, hbt]
        rw [bt_switch_fallback_eq env "toggle" pins hWF hsome hlen (Or.inl ⟨rfl, h2⟩) hbt,
          hct]
        simp [ledStatesForTarget]
      · refine ⟨resolveTrace env pins ++ [Event.mpcOutputsQuery, Event.btInfoQuery],
          ?_, preEvents_probe3⟩
        have hct : codeTarget env "toggle" = 2 := by simp [codeTarget, h2, hbt]
        rw [bt_switch_btConn_eq env "toggle" pins hWF hsome hlen (Or.inl ⟨rfl, h2⟩) hbt,
          hct]
        simp [ledStatesForTarget]
    · refine ⟨resolveTrace env pins ++ [Event.mpcOutputsQuery], ?_, preEvents_probe2⟩
      have hct : codeTarget env "toggle" = 1 := by simp [codeTarget, h2]
      rw [bt_switch_default_eq env "toggle" pins hWF hsome hlen (Or.inr (Or.inl ⟨rfl, h2⟩)),
        hct]
      simp [ledStatesForTarget]
  · refine ⟨resolveTrace env pins ++ [Event.mpcOutputsQuery], ?_, preEvents_probe2⟩
    have hct : codeTarget env "speakers" = 1 := by simp [codeTarget]
    rw [bt_switch_default_eq env "speakers" pins hWF hsome hlen (Or.inl rfl), hct]
    simp [ledStatesForTarget]
  · rcases hbt : env.isBtConnected with _ | _
    · refine ⟨resolveTrace env pins ++ [Event.mpcOutputsQuery, Event.btInfoQuery] ++
        bt_connect_all env ++ (blinkTrace (resolvedPins env pins) ++
          blinkTrace (resolvedPins env pins) ++ blinkTrace (resolvedPins env pins)),
        ?_, preEvents_fallbackPre⟩
      have hct : codeTarget env "headphones" = 1 := by simp [codeTarget, hbt]
      rw [bt_switch_fallback_eq env "headphones" pins hWF hsome hlen (Or.inr rfl) hbt, hct]
      simp [ledStatesForTarget]
    · refine ⟨resolveTrace env pins ++ [Event.mpcOutputsQuery, Event.btInfoQuery],
        ?_, preEvents_probe3⟩
      have hct : codeTarget env "headphones" = 2 := by simp [codeTarget, hbt]
      rw [bt_switch_btConn_eq env "headphones" pins hWF hsome hlen (Or.inr rfl) hbt, hct]
      simp [ledStatesForTarget]
  · rcases h3 : env.isOutput3On with _ | _
    · refine ⟨resolveTrace env pins ++ [Event.mpcOutputsQuery], ?_, preEvents_probe2⟩
      have hct : codeTarget env "toggle2" = 3 := by simp [codeTarget, h3]
      rw [bt_switch_secondary_eq env "toggle2" pins hWF hsome hlen (Or.inl ⟨rfl, h3⟩), hct]
      simp [ledStatesForTarget]
    · refine ⟨resolveTrace env pins ++ [Event.mpcOutputsQuery], ?_, preEvents_probe2⟩
      have hct : codeTarget env "toggle2" = 1 := by simp [codeTarget, h3]
      rw [bt_switch_default_eq env "toggle2" pins hWF hsome hlen
        (Or.inr (Or.inr ⟨rfl, h3⟩)), hct]
      simp [ledStatesForTarget]
  · refine ⟨resolveTrace env pins ++ [Event.mpcOutputsQuery], ?_, preEvents_probe2⟩
    have hct : codeTarget env "headphones2" = 3 := by simp [codeTarget]
    rw [bt_switch_secondary_eq env "headphones2" pins hWF hsome hlen (Or.inr rfl), hct]
    simp [ledStatesForTarget]

theorem mem_blinkTrace {rs : List (Option (List String))} {e : Event}
    (he : e ∈ blinkTrace rs) :
    (∃ c l b, e = Event.gpioset c l b) ∨ e = Event.sleepMs 250 := by
  simp only [blinkTrace, List.mem_append, List.mem_singleton] at he
  rcases he with ((h | rfl) | h) | rfl
  · exact Or.inl (mem_bt_leds h)
  · exact Or.inr rfl
  · exact Or.inl (mem_bt_leds h)
  · exact Or.inr rfl

theorem selectedTargets_switchTrace (env : Env) (rs : List (Option (List String)))
    (s : List Bool) (t : Nat) {pre : List Event}
    (hpre : ∀ e ∈ pre, isPreEvent e = true) :
    selectedTargets (pre ++ ([Event.mpcEnable t, Event.sleepMs 100, Event.mpcEnableOnly t] ++
      bt_check_mpc_err env ++ (bt_leds rs s).1)) = [t] := by
  have hchk : selectedTargets (bt_check_mpc_err env) = [] :=
    selectedTargets_eq_nil fun e he => by
      rcases mem_bt_check he with rfl | rfl <;> rfl
  have hled : selectedTargets (bt_leds rs s).1 = [] :=
    selectedTargets_eq_nil fun e he => targetOf_of_isPreEvent (preEvents_bt_leds e he)
  have hpre0 : selectedTargets pre = [] :=
    selectedTargets_eq_nil fun e he => targetOf_of_isPreEvent (hpre e he)
  simp only [selectedTargets] at hpre0 hchk hled ⊢
  simp [List.filterMap_append, hpre0, hchk, hled, targetOf]

theorem runOutputs_append (s : Nat → Bool) (a b : List Event) :
    runOutputs s (a ++ b) = runOutputs (runOutputs s a) b := by
  simp [runOutputs, List.foldl_append]

theorem applyOutputs_neutral : ∀ {e : Event}, isEnableCmd e = false →
    ∀ s : Nat → Bool, applyOutputs s e = s
  | Event.gpiofind _, _, _ => rfl
  | Event.logError _, _, _ => rfl
  | Event.mpcOutputsQuery, _, _ => rfl
  | Event.btInfoQuery, _, _ => rfl
  | Event.btDevicesQuery, _, _ => rfl
  | Event.btConnect _, _, _ => rfl
  | Event.gpioset _ _ _, _, _ => rfl
  | Event.sleepMs _, _, _ => rfl
  | Event.mpcStatusQuery, _, _ => rfl
  | Event.mpcPlay, _, _ => rfl
  | Event.mpcEnable _, h, _ => by simp [isEnableCmd] at h
  | Event.mpcEnableOnly _, h, _ => by simp [isEnableCmd] at h

theorem runOutputs_neutral {l : List Event} (h : ∀ e ∈ l, isEnableCmd e = false) :
    ∀ s : Nat → Bool, runOutputs s l = s := by
  induction l with
  | nil => intro s; rfl
  | cons e l ih =>
    intro s
    show runOutputs (applyOutputs s e) l = s
    rw [applyOutputs_neutral (h e (by simp))]
    exact ih (fun x hx => h x (by simp [hx])) s

/-- C1: for every valid command that the section 4.3 decision table lists
and every combination of output-2 enablement, output-3 enablement and
Bluetooth connectivity, the invocation exclusively enables exactly the
target output the table specifies, and no other. -/
theorem C1_decision_table (env : Env) (cmd : String) (pins : List (Option String))
    (hWF : Env.WF env) (hsome : ∀ p ∈ pins, p ≠ none) (hlen : pins.length ≤ 2)
    (t : Nat)
    (ht : decisionTableTarget cmd env.isOutput2On env.isOutput3On env.isBtConnected
      = some t) :
    selectedTargets (bt_switch env cmd pins).1 = [t] := by
  have hvalid : cmd = "toggle" ∨ cmd = "speakers" ∨ cmd = "headphones" ∨
      cmd = "toggle2" ∨ cmd = "headphones2" := by
    by_cases h1 : cmd = "toggle"
    · exact Or.inl h1
    by_cases h2 : cmd = "headphones"
    · exact Or.inr (Or.inr (Or.inl h2))
    by_cases h3 : cmd = "toggle2"
    · exact Or.inr (Or.inr (Or.inr (Or.inl h3)))
    by_cases h4 : cmd = "headphones2"
    · exact Or.inr (Or.inr (Or.inr (Or.inr h4)))
    simp [decisionTableTarget, h1, h2, h3, h4] at ht
  have hct : codeTarget env cmd = t := by
    rcases hvalid with rfl | rfl | rfl | rfl | rfl
    · rcases h2 : env.isOutput2On with _ | _ <;>
        rcases hbt : env.isBtConnected with _ | _ <;>
        simp [decisionTableTarget, h2, hbt] at ht <;>
        simp [codeTarget, h2, hbt] <;> omega
    · simp [decisionTableTarget] at ht
    · rcases hbt : env.isBtConnected with _ | _ <;>
        simp [decisionTableTarget, hbt] at ht <;>
        simp [codeTarget, hbt] <;> omega
    · rcases h3 : env.isOutput3On with _ | _ <;>
        simp [decisionTableTarget, h3] at ht <;>
        simp [codeTarget, h3] <;> omega
    · simp [decisionTableTarget] at ht
      simp [codeTarget]
      omega
  obtain ⟨pre, heq, hpre⟩ := bt_switch_shape env cmd pins hWF hsome hlen hvalid
  rw [hct] at heq
  rw [heq]
  exact selectedTargets_switchTrace env (resolvedPins env pins) (ledStatesForTarget t) t hpre

theorem envSpk_wf : Env.WF envSpk := by
  intro pin l h
  simp [resolve_one, envSpk] at h

theorem envNC_wf : Env.WF envNC := by
  intro pin l h
  simp [resolve_one, envNC] at h

theorem C1_decision_table_witness :
    selectedTargets (bt_switch envSpk "toggle" []).1 = [2] :=
  C1_decision_table envSpk "toggle" [] envSpk_wf (by simp) (by decide) 2 (by decide)

/-- C2: the claim that LED handling is never fatal fails on the code.  A
slot whose symbolic pin name is absent (`None`, as when the configuration
file or key is missing) reaches `subprocess.run(["gpiofind", None])`,
which raises `TypeError`: the invocation aborts with no event at all, the
sink switch never happens.  This contradicts the script's own docstring
("If None, LED support is disabled") — evaluated here at the failing
input `cmd="toggle"`, `led_pins=[None, None]`. -/
theorem C2_none_pin_fatal :
    bt_switch envSpk "toggle" [none, none] = ([], Except.error PyError.typeError) := rfl

/-- C6: a command token outside the five recognized ones logs exactly one
error and performs no side effect: no pin lookup, no player or Bluetooth
query, no enable command, no GPIO call, and the invocation returns
normally. -/
theorem C6_invalid_command (env : Env) (cmd : String) (pins : List (Option String))
    (h : cmd ∉ (["toggle", "speakers", "headphones", "toggle2", "headphones2"] :
      List String)) :
    bt_switch env cmd pins =
      ([Event.logError "Invalid command. Doing nothing."], Except.ok ()) := by
  simp only [List.mem_cons, List.not_mem_nil, or_false, not_or] at h
  obtain ⟨h1, h2, h3, h4, h5⟩ := h
  simp [bt_switch, h1, h2, h3, h4, h5]

theorem C6_invalid_command_witness :
    bt_switch envSpk "foo" [] =
      ([Event.logError "Invalid command. Doing nothing."], Except.ok ()) :=
  C6_invalid_command envSpk "foo" [] (by decide)

/-- C3: for the target output selected by any valid invocation, the
additive enable command is issued strictly before the exclusive enable
command, with a non-zero delay between the two calls and no other
output-enable command in between — indeed none anywhere else in the run. -/
theorem C3_enable_ordering (env : Env) (cmd : String) (pins : List (Option String))
    (hWF : Env.WF env) (hsome : ∀ p ∈ pins, p ≠ none) (hlen : pins.length ≤ 2)
    (hvalid : cmd = "toggle" ∨ cmd = "speakers" ∨ cmd = "headphones" ∨
      cmd = "toggle2" ∨ cmd = "headphones2") :
    ∃ t d pre post,
      (bt_switch env cmd pins).1 =
        pre ++ [Event.mpcEnable t, Event.sleepMs d, Event.mpcEnableOnly t] ++ post ∧
      0 < d ∧
      (∀ e ∈ pre, isEnableCmd e = false) ∧
      (∀ e ∈ post, isEnableCmd e = false) := by
  obtain ⟨pre, heq, hpre⟩ := bt_switch_shape env cmd pins hWF hsome hlen hvalid
  have heq1 : (bt_switch env cmd pins).1 =
      pre ++ ([Event.mpcEnable (codeTarget env cmd), Event.sleepMs 100,
        Event.mpcEnableOnly (codeTarget env cmd)] ++ bt_check_mpc_err env ++
        (bt_leds (resolvedPins env pins) (ledStatesForTarget (codeTarget env cmd))).1) := by
    rw [heq]
  refine ⟨codeTarget env cmd, 100, pre,
    bt_check_mpc_err env ++
      (bt_leds (resolvedPins env pins) (ledStatesForTarget (codeTarget env cmd))).1,
    ?_, by omega, fun e he => isEnableCmd_of_isPreEvent (hpre e he), ?_⟩
  · rw [heq1]
    simp [List.append_assoc]
  · intro e he
    rcases List.mem_append.mp he with h | h
    · rcases mem_bt_check h with rfl | rfl <;> rfl
    · obtain ⟨c, l, b, rfl⟩ := mem_bt_leds h
      rfl

theorem C3_enable_ordering_witness :
    ∃ t d pre post,
      (bt_switch envSpk "speakers" []).1 =
        pre ++ [Event.mpcEnable t, Event.sleepMs d, Event.mpcEnableOnly t] ++ post ∧
      0 < d ∧
      (∀ e ∈ pre, isEnableCmd e = false) ∧
      (∀ e ∈ post, isEnableCmd e = false) :=
  C3_enable_ordering envSpk "speakers" [] envSpk_wf (by simp) (by decide)
    (Or.inr (Or.inl rfl))

/-- C4: after every valid switch the player status is re-queried exactly
once; exactly one resume command is issued when the status output matches
the `ERROR:.*output` failure pattern and zero otherwise, with no retry. -/
theorem C4_recovery_once (env : Env) (cmd : String) (pins : List (Option String))
    (hWF : Env.WF env) (hsome : ∀ p ∈ pins, p ≠ none) (hlen : pins.length ≤ 2)
    (hvalid : cmd = "toggle" ∨ cmd = "speakers" ∨ cmd = "headphones" ∨
      cmd = "toggle2" ∨ cmd = "headphones2") :
    (bt_switch env cmd pins).1.count Event.mpcStatusQuery = 1 ∧
    (bt_switch env cmd pins).1.count Event.mpcPlay =
      (if matchErrorOutput env.mpcStatusText then 1 else 0) := by
  obtain ⟨pre, heq, hpre⟩ := bt_switch_shape env cmd pins hWF hsome hlen hvalid
  have heq1 : (bt_switch env cmd pins).1 =
      pre ++ ([Event.mpcEnable (codeTarget env cmd), Event.sleepMs 100,
        Event.mpcEnableOnly (codeTarget env cmd)] ++ bt_check_mpc_err env ++
        (bt_leds (resolvedPins env pins) (ledStatesForTarget (codeTarget env cmd))).1) := by
    rw [heq]
  have hs : Event.mpcStatusQuery ∉ pre := fun hc => by
    have h := hpre _ hc
    simp [isPreEvent] at h
  have hp : Event.mpcPlay ∉ pre := fun hc => by
    have h := hpre _ hc
    simp [isPreEvent] at h
  have hls : Event.mpcStatusQuery ∉
      (bt_leds (resolvedPins env pins) (ledStatesForTarget (codeTarget env cmd))).1 :=
    fun hc => by obtain ⟨c, l, b, h⟩ := mem_bt_leds hc; simp at h
  have hlp : Event.mpcPlay ∉
      (bt_leds (resolvedPins env pins) (ledStatesForTarget (codeTarget env cmd))).1 :=
    fun hc => by obtain ⟨c, l, b, h⟩ := mem_bt_leds hc; simp at h
  have hts : Event.mpcStatusQuery ∉ [Event.mpcEnable (codeTarget env cmd),
      Event.sleepMs 100, Event.mpcEnableOnly (codeTarget env cmd)] := by simp
  have htp : Event.mpcPlay ∉ [Event.mpcEnable (codeTarget env cmd),
      Event.sleepMs 100, Event.mpcEnableOnly (codeTarget env cmd)] := by simp
  rw [heq1]
  by_cases hm : matchErrorOutput env.mpcStatusText <;>
    simp [bt_check_mpc_err, hm, List.count_append, List.count_cons, List.count_nil,
      List.count_eq_zero.mpr hs, List.count_eq_zero.mpr hp,
      List.count_eq_zero.mpr hls, List.count_eq_zero.mpr hlp,
      List.count_eq_zero.mpr hts, List.count_eq_zero.mpr htp]

theorem C4_recovery_once_witness :
    (bt_switch envNC "speakers" []).1.count Event.mpcStatusQuery = 1 ∧
    (bt_switch envNC "speakers" []).1.count Event.mpcPlay =
      (if matchErrorOutput envNC.mpcStatusText then 1 else 0) :=
  C4_recovery_once envNC "speakers" [] envNC_wf (by simp) (by decide)
    (Or.inr (Or.inl rfl))

/-- C5: the final steady LED levels applied after every valid switch are
exactly the spec mapping of the selected target — (off, off) for target 1,
(on, off) for target 2, (off, on) for target 3 — the mapping is injective
on the three targets, and a `None` LED slot never yields a level-set
call. -/
theorem C5_led_mapping (env : Env) (cmd : String) (pins : List (Option String))
    (hWF : Env.WF env) (hsome : ∀ p ∈ pins, p ≠ none) (hlen : pins.length ≤ 2)
    (hvalid : cmd = "toggle" ∨ cmd = "speakers" ∨ cmd = "headphones" ∨
      cmd = "toggle2" ∨ cmd = "headphones2") :
    ∃ t pre,
      selectedTargets (bt_switch env cmd pins).1 = [t] ∧
      (bt_switch env cmd pins).1 =
        pre ++ (bt_leds (resolvedPins env pins) (ledStatesForTarget t)).1 ∧
      (∀ t1 ∈ ([1, 2, 3] : List Nat), ∀ t2 ∈ ([1, 2, 3] : List Nat),
        ledStatesForTarget t1 = ledStatesForTarget t2 → t1 = t2) ∧
      ∀ b, bt_led none b = ([], Except.ok ()) := by
  obtain ⟨pre, heq, hpre⟩ := bt_switch_shape env cmd pins hWF hsome hlen hvalid
  have heq1 : (bt_switch env cmd pins).1 =
      pre ++ ([Event.mpcEnable (codeTarget env cmd), Event.sleepMs 100,
        Event.mpcEnableOnly (codeTarget env cmd)] ++ bt_check_mpc_err env ++
        (bt_leds (resolvedPins env pins) (ledStatesForTarget (codeTarget env cmd))).1) := by
    rw [heq]
  refine ⟨codeTarget env cmd,
    pre ++ ([Event.mpcEnable (codeTarget env cmd), Event.sleepMs 100,
      Event.mpcEnableOnly (codeTarget env cmd)] ++ bt_check_mpc_err env),
    ?_, ?_, by decide, fun b => rfl⟩
  · rw [heq1]
    exact selectedTargets_switchTrace env (resolvedPins env pins)
      (ledStatesForTarget (codeTarget env cmd)) (codeTarget env cmd) hpre
  · rw [heq1]
    simp [List.append_assoc]

theorem C5_led_mapping_witness :
    ∃ t pre,
      selectedTargets (bt_switch envSpk "toggle" []).1 = [t] ∧
      (bt_switch envSpk "toggle" []).1 =
        pre ++ (bt_leds (resolvedPins envSpk []) (ledStatesForTarget t)).1 ∧
      (∀ t1 ∈ ([1, 2, 3] : List Nat), ∀ t2 ∈ ([1, 2, 3] : List Nat),
        ledStatesForTarget t1 = ledStatesForTarget t2 → t1 = t2) ∧
      ∀ b, bt_led none b = ([], Except.ok ()) :=
  C5_led_mapping envSpk "toggle" [] envSpk_wf (by simp) (by decide) (Or.inl rfl)

/-- C9: at the end of every valid invocation exactly one player output is
enabled — the selected target — whatever the initial output state was,
because the exclusive enable of the target is the last output-mutating
command of the run. -/
theorem C9_exactly_one_output (env : Env) (cmd : String) (pins : List (Option String))
    (hWF : Env.WF env) (hsome : ∀ p ∈ pins, p ≠ none) (hlen : pins.length ≤ 2)
    (hvalid : cmd = "toggle" ∨ cmd = "speakers" ∨ cmd = "headphones" ∨
      cmd = "toggle2" ∨ cmd = "headphones2") :
    ∃ t, selectedTargets (bt_switch env cmd pins).1 = [t] ∧
      ∀ (s0 : Nat → Bool) (m : Nat),
        runOutputs s0 (bt_switch env cmd pins).1 m = (m == t) := by
  obtain ⟨pre, heq, hpre⟩ := bt_switch_shape env cmd pins hWF hsome hlen hvalid
  have heq1 : (bt_switch env cmd pins).1 =
      pre ++ ([Event.mpcEnable (codeTarget env cmd), Event.sleepMs 100,
        Event.mpcEnableOnly (codeTarget env cmd)] ++ bt_check_mpc_err env ++
        (bt_leds (resolvedPins env pins) (ledStatesForTarget (codeTarget env cmd))).1) := by
    rw [heq]
  refine ⟨codeTarget env cmd, ?_, ?_⟩
  · rw [heq1]
    exact selectedTargets_switchTrace env (resolvedPins env pins)
      (ledStatesForTarget (codeTarget env cmd)) (codeTarget env cmd) hpre
  · intro s0 m
    rw [heq1, runOutputs_append,
      runOutputs_neutral (fun e he => isEnableCmd_of_isPreEvent (hpre e he))]
    have h2 : ∀ e ∈ bt_check_mpc_err env ++
        (bt_leds (resolvedPins env pins) (ledStatesForTarget (codeTarget env cmd))).1,
        isEnableCmd e = false := by
      intro e he
      rcases List.mem_append.mp he with h | h
      · rcases mem_bt_check h with rfl | rfl <;> rfl
      · obtain ⟨c, l, b, rfl⟩ := mem_bt_leds h
        rfl
    rw [show ([Event.mpcEnable (codeTarget env cmd), Event.sleepMs 100,
        Event.mpcEnableOnly (codeTarget env cmd)] ++ bt_check_mpc_err env ++
        (bt_leds (resolvedPins env pins) (ledStatesForTarget (codeTarget env cmd))).1) =
      [Event.mpcEnable (codeTarget env cmd), Event.sleepMs 100,
        Event.mpcEnableOnly (codeTarget env cmd)] ++ (bt_check_mpc_err env ++
        (bt_leds (resolvedPins env pins) (ledStatesForTarget (codeTarget env cmd))).1)
      from by simp [List.append_assoc]]
    rw [runOutputs_append, runOutputs_neutral h2]
    simp [runOutputs, applyOutputs]

theorem C9_exactly_one_output_witness :
    ∃ t, selectedTargets (bt_switch envSpk "toggle" []).1 = [t] ∧
      ∀ (s0 : Nat → Bool) (m : Nat),
        runOutputs s0 (bt_switch envSpk "toggle" []).1 m = (m == t) :=
  C9_exactly_one_output envSpk "toggle" [] envSpk_wf (by simp) (by decide) (Or.inl rfl)

/-- C7: `toggle` with output 2 not enabled and no Bluetooth connection
performs exactly one connect-all pass (one device enumeration followed by
one connect attempt per parsed device, in sequence, results ignored),
blinks exactly 3 cycles of LEDs (on, off) for 250 ms then (off, off) for
250 ms, and switches to target output 1 with final LED pattern
(off, off). -/
theorem C7_toggle_fallback (env : Env) (pins : List (Option String))
    (hWF : Env.WF env) (hsome : ∀ p ∈ pins, p ≠ none) (hlen : pins.length ≤ 2)
    (h2 : env.isOutput2On = false) (hbt : env.isBtConnected = false) :
    bt_switch env "toggle" pins =
      (resolveTrace env pins ++ [Event.mpcOutputsQuery, Event.btInfoQuery] ++
         ([Event.btDevicesQuery] ++ (btDeviceIds env).map Event.btConnect) ++
         (blinkTrace (resolvedPins env pins) ++ blinkTrace (resolvedPins env pins) ++
           blinkTrace (resolvedPins env pins)) ++
         ([Event.mpcEnable 1, Event.sleepMs 100, Event.mpcEnableOnly 1] ++
           bt_check_mpc_err env ++ (bt_leds (resolvedPins env pins) [false, false]).1),
       Except.ok ()) ∧
    (bt_switch env "toggle" pins).1.count Event.btDevicesQuery = 1 := by
  have heq := bt_switch_fallback_eq env "toggle" pins hWF hsome hlen (Or.inl ⟨rfl, h2⟩) hbt
  constructor
  · rw [heq]
    rfl
  · have heq1 : (bt_switch env "toggle" pins).1 =
        resolveTrace env pins ++ [Event.mpcOutputsQuery, Event.btInfoQuery] ++
          ([Event.btDevicesQuery] ++ (btDeviceIds env).map Event.btConnect) ++
          (blinkTrace (resolvedPins env pins) ++ blinkTrace (resolvedPins env pins) ++
            blinkTrace (resolvedPins env pins)) ++
          ([Event.mpcEnable 1, Event.sleepMs 100, Event.mpcEnableOnly 1] ++
            bt_check_mpc_err env ++ (bt_leds (resolvedPins env pins) [false, false]).1) := by
      rw [heq]
      rfl
    have hrt : Event.btDevicesQuery ∉ resolveTrace env pins := fun hc => by
      rcases mem_resolveTrace hc with ⟨p, h⟩ | h <;> simp at h
    have hqb : Event.btDevicesQuery ∉ [Event.mpcOutputsQuery, Event.btInfoQuery] := by
      simp
    have hmap : Event.btDevicesQuery ∉ (btDeviceIds env).map Event.btConnect := fun hc => by
      simp [List.mem_map] at hc
    have hbl : Event.btDevicesQuery ∉ blinkTrace (resolvedPins env pins) := fun hc => by
      rcases mem_blinkTrace hc with ⟨c, l, b, h⟩ | h <;> simp at h
    have htr : Event.btDevicesQuery ∉
        [Event.mpcEnable 1, Event.sleepMs 100, Event.mpcEnableOnly 1] := by simp
    have hchk : Event.btDevicesQuery ∉ bt_check_mpc_err env := fun hc => by
      rcases mem_bt_check hc with h | h <;> simp at h
    have hled : Event.btDevicesQuery ∉
        (bt_leds (resolvedPins env pins) [false, false]).1 := fun hc => by
      obtain ⟨c, l, b, h⟩ := mem_bt_leds hc
      simp at h
    rw [heq1]
    simp [List.count_append, List.count_cons, List.count_nil,
      List.count_eq_zero.mpr hrt, List.count_eq_zero.mpr hqb,
      List.count_eq_zero.mpr hmap, List.count_eq_zero.mpr hbl,
      List.count_eq_zero.mpr htr, List.count_eq_zero.mpr hchk,
      List.count_eq_zero.mpr hled]

theorem C7_toggle_fallback_witness :
    bt_switch envNC "toggle" [] =
      (resolveTrace envNC [] ++ [Event.mpcOutputsQuery, Event.btInfoQuery] ++
         ([Event.btDevicesQuery] ++ (btDeviceIds envNC).map Event.btConnect) ++
         (blinkTrace (resolvedPins envNC []) ++ blinkTrace (resolvedPins envNC []) ++
           blinkTrace (resolvedPins envNC [])) ++
         ([Event.mpcEnable 1, Event.sleepMs 100, Event.mpcEnableOnly 1] ++
           bt_check_mpc_err envNC ++ (bt_leds (resolvedPins envNC []) [false, false]).1),
       Except.ok ()) ∧
    (bt_switch envNC "toggle" []).1.count Event.btDevicesQuery = 1 :=
  C7_toggle_fallback envNC [] envNC_wf (by simp) (by decide) (by decide) (by decide)

/-- C8: `headphones2` in every state, and `toggle2` whenever output 3 is
not enabled, select target output 3, never query Bluetooth connectivity,
and end with the final LED pattern (primary off, secondary on). -/
theorem C8_secondary_no_probe (env : Env) (cmd : String) (pins : List (Option String))
    (hWF : Env.WF env) (hsome : ∀ p ∈ pins, p ≠ none) (hlen : pins.length ≤ 2)
    (hcmd : (cmd = "toggle2" ∧ env.isOutput3On = false) ∨ cmd = "headphones2") :
    selectedTargets (bt_switch env cmd pins).1 = [3] ∧
    Event.btInfoQuery ∉ (bt_switch env cmd pins).1 ∧
    ∃ pre, (bt_switch env cmd pins).1 =
      pre ++ (bt_leds (resolvedPins env pins) [false, true]).1 := by
  have heq := bt_switch_secondary_eq env cmd pins hWF hsome hlen hcmd
  have heq1 : (bt_switch env cmd pins).1 =
      (resolveTrace env pins ++ [Event.mpcOutputsQuery]) ++
        ([Event.mpcEnable 3, Event.sleepMs 100, Event.mpcEnableOnly 3] ++
          bt_check_mpc_err env ++ (bt_leds (resolvedPins env pins) [false, true]).1) := by
    rw [heq]
  refine ⟨?_, ?_, ?_⟩
  · rw [heq1]
    exact selectedTargets_switchTrace env (resolvedPins env pins) [false, true] 3
      preEvents_probe2
  · rw [heq1]
    intro hc
    rcases List.mem_append.mp hc with h | h
    · rcases List.mem_append.mp h with h1 | h1
      · rcases mem_resolveTrace h1 with ⟨p, hh⟩ | hh <;> simp at hh
      · simp at h1
    · rcases List.mem_append.mp h with h1 | h1
      · rcases List.mem_append.mp h1 with h2 | h2
        · simp at h2
        · rcases mem_bt_check h2 with hh | hh <;> simp at hh
      · obtain ⟨c, l, b, hh⟩ := mem_bt_leds h1
        simp at hh
  · exact ⟨(resolveTrace env pins ++ [Event.mpcOutputsQuery]) ++
      ([Event.mpcEnable 3, Event.sleepMs 100, Event.mpcEnableOnly 3] ++
        bt_check_mpc_err env),
      by rw [heq1]; simp [List.append_assoc]⟩

theorem C8_secondary_no_probe_witness :
    selectedTargets (bt_switch envSpk "headphones2" []).1 = [3] ∧
    Event.btInfoQuery ∉ (bt_switch envSpk "headphones2" []).1 ∧
    ∃ pre, (bt_switch envSpk "headphones2" []).1 =
      pre ++ (bt_leds (resolvedPins envSpk []) [false, true]).1 :=
  C8_secondary_no_probe envSpk "headphones2" [] envSpk_wf (by simp) (by decide)
    (Or.inr rfl)

/-- C10: the `speakers` command always selects output 1, regardless of
output-2/output-3 state and connectivity, and performs no Bluetooth
connectivity query and no connect-all attempt. -/
theorem C10_speakers_direct (env : Env) (pins : List (Option String))
    (hWF : Env.WF env) (hsome : ∀ p ∈ pins, p ≠ none) (hlen : pins.length ≤ 2) :
    selectedTargets (bt_switch env "speakers" pins).1 = [1] ∧
    Event.btInfoQuery ∉ (bt_switch env "speakers" pins).1 ∧
    Event.btDevicesQuery ∉ (bt_switch env "speakers" pins).1 ∧
    ∀ d, Event.btConnect d ∉ (bt_switch env "speakers" pins).1 := by
  have heq := bt_switch_default_eq env "speakers" pins hWF hsome hlen (Or.inl rfl)
  have heq1 : (bt_switch env "speakers" pins).1 =
      (resolveTrace env pins ++ [Event.mpcOutputsQuery]) ++
        ([Event.mpcEnable 1, Event.sleepMs 100, Event.mpcEnableOnly 1] ++
          bt_check_mpc_err env ++ (bt_leds (resolvedPins env pins) [false, false]).1) := by
    rw [heq]
  have hmem : ∀ e, e ∈ (bt_switch env "speakers" pins).1 →
      (∃ p, e = Event.gpiofind p) ∨ e = Event.logError "GPIO for LED not found" ∨
      e = Event.mpcOutputsQuery ∨ e = Event.mpcEnable 1 ∨ e = Event.sleepMs 100 ∨
      e = Event.mpcEnableOnly 1 ∨ e = Event.mpcStatusQuery ∨ e = Event.mpcPlay ∨
      ∃ c l b, e = Event.gpioset c l b := by
    intro e he
    rw [heq1] at he
    rcases List.mem_append.mp he with h | h
    · rcases List.mem_append.mp h with h1 | h1
      · rcases mem_resolveTrace h1 with hp | hp
        · exact Or.inl hp
        · exact Or.inr (Or.inl hp)
      · simp at h1
        subst h1
        exact Or.inr (Or.inr (Or.inl rfl))
    · rcases List.mem_append.mp h with h1 | h1
      · rcases List.mem_append.mp h1 with h2 | h2
        · simp at h2
          rcases h2 with rfl | rfl | rfl
          · exact Or.inr (Or.inr (Or.inr (Or.inl rfl)))
          · exact Or.inr (Or.inr (Or.inr (Or.inr (Or.inl rfl))))
          · exact Or.inr (Or.inr (Or.inr (Or.inr (Or.inr (Or.inl rfl)))))
        · rcases mem_bt_check h2 with rfl | rfl
          · exact Or.inr (Or.inr (Or.inr (Or.inr (Or.inr (Or.inr (Or.inl rfl))))))
          · exact Or.inr (Or.inr (Or.inr (Or.inr (Or.inr (Or.inr (Or.inr (Or.inl rfl)))))))
      · obtain ⟨c, l, b, rfl⟩ := mem_bt_leds h1
        exact Or.inr (Or.inr (Or.inr (Or.inr (Or.inr (Or.inr (Or.inr (Or.inr
          ⟨c, l, b, rfl⟩)))))))
  refine ⟨?_, fun hc => ?_, fun hc => ?_, fun d hc => ?_⟩
  · rw [heq1]
    exact selectedTargets_switchTrace env (resolvedPins env pins) [false, false] 1
      preEvents_probe2
  · rcases hmem _ hc with ⟨p, h⟩ | h | h | h | h | h | h | h | ⟨c, l, b, h⟩ <;> simp at h
  · rcases hmem _ hc with ⟨p, h⟩ | h | h | h | h | h | h | h | ⟨c, l, b, h⟩ <;> simp at h
  · rcases hmem _ hc with ⟨p, h⟩ | h | h | h | h | h | h | h | ⟨c, l, b, h⟩ <;> simp at h

theorem C10_speakers_direct_witness :
    selectedTargets (bt_switch envSpk "speakers" []).1 = [1] ∧
    Event.btInfoQuery ∉ (bt_switch envSpk "speakers" []).1 ∧
    Event.btDevicesQuery ∉ (bt_switch envSpk "speakers" []).1 ∧
    ∀ d, Event.btConnect d ∉ (bt_switch envSpk "speakers" []).1 :=
  C10_speakers_direct envSpk [] envSpk_wf (by simp) (by decide)

end BtSink
